import Mathlib

/-!
Shallow embedding of the bitscrunch-chatbot repository (Python sources under
`src/`): the address extractor and validator, the intent classifier, the
upstream data gateway (`bitscrunch/api_client.py`), the response formatters
and the chat orchestrator (`services/chat_service.py`,
`services/data_processor.py`).

Strings are modelled as `List Char`.  Python `float` quantities are modelled
as rationals; the numeric display helpers mirror the Python format strings on
exactly representable decimal values.  HTTP and completion-provider effects
are modelled by an explicit environment of upstream outcomes; Python
exceptions are modelled with `Except` (a `try/except Exception` block becomes
a `match` on the `Except` value).
-/

set_option maxRecDepth 16384

namespace BitsChat

/-- ASCII whitespace recognised by Python `str.strip()` (the Unicode cases are
not needed by any theorem below). -/
def isPySpace (c : Char) : Bool :=
  c == ' ' || c == '\t' || c == '\n' || c == '\r' || c == '\x0b' || c == '\x0c'

/-- Python `str.strip()`: drop leading and trailing whitespace. -/
def pyStrip (s : List Char) : List Char :=
  ((s.dropWhile isPySpace).reverse.dropWhile isPySpace).reverse

/-- ASCII lower-casing of one character (Python `str.lower()`; every keyword
tested by the classifier is ASCII). -/
def pyLowerChar (c : Char) : Char :=
  if 'A' ≤ c && c ≤ 'Z' then Char.ofNat (c.toNat + 32) else c

/-- Python `str.lower()` on a whole string. -/
def pyLower (s : List Char) : List Char := s.map pyLowerChar

/-- ASCII upper-casing of one character (Python `str.upper()`). -/
def pyUpperChar (c : Char) : Char :=
  if 'a' ≤ c && c ≤ 'z' then Char.ofNat (c.toNat - 32) else c

/-- Python `str.upper()` on a whole string. -/
def pyUpper (s : List Char) : List Char := s.map pyUpperChar

/-- The regex character class `[a-fA-F0-9]` used by both address patterns. -/
def isHexDigit (c : Char) : Bool :=
  ('0' ≤ c && c ≤ '9') || ('a' ≤ c && c ≤ 'f') || ('A' ≤ c && c ≤ 'F')

/-- Python `pat in s` substring test on strings. -/
def isSubstrOf (pat : List Char) : List Char → Bool
  | [] => pat.isEmpty
  | c :: rest => pat.isPrefixOf (c :: rest) || isSubstrOf pat rest

/-- `pat` occurs as a contiguous substring of `s` (propositional form). -/
def SubstrOf (pat s : List Char) : Prop := ∃ u v, s = u ++ pat ++ v

/-- Does the regex `0x[a-fA-F0-9]{40}` match the whole string?  (The first
two characters are `0x` and they are followed by exactly forty hex digits.)
This is the body shared by the validator (anchored `re.match … $`) and by
the extractor's per-position match attempt. -/
def matchesAddrPattern (a : List Char) : Bool :=
  a.take 2 == "0x".data && (a.drop 2).length == 40 && (a.drop 2).all isHexDigit

/-- `DataProcessor.is_valid_wallet_address` (`services/data_processor.py`
lines 15-25): reject falsy (empty) input, strip surrounding whitespace, then
anchored match against `^0x[a-fA-F0-9]{40}$`. -/
def is_valid_wallet_address (address : List Char) : Bool :=
  if address.isEmpty then false
  else matchesAddrPattern (pyStrip address)

/-- If the regex `0x[a-fA-F0-9]{40}` matches starting at the head of `l`,
return the 42-character match, else `none` (one position's attempt of
`re.search`; the pattern has fixed length, so the attempt succeeds exactly
when the next 42 characters exist and match). -/
def matchAddrHere (l : List Char) : Option (List Char) :=
  if matchesAddrPattern (l.take 42) then some (l.take 42) else none

/-- `ChatService._extract_wallet_address` (`services/chat_service.py` lines
34-36): `re.search(r'0x[a-fA-F0-9]{40}', message)`, returning the leftmost
match or `None`. -/
def extract_wallet_address : List Char → Option (List Char)
  | [] => none
  | c :: rest =>
      match matchAddrHere (c :: rest) with
      | some m => some m
      | none => extract_wallet_address rest

/-- The closed intent enumeration of the wallet-query router. -/
inductive Intent where
  | tokenAnalysis
  | nftAnalysis
  | transactionHistory
  | riskAssessment
  | whaleAnalysis
  | contractVerification
  deriving DecidableEq, Repr

/-- Keyword set routed to `_handle_token_analysis`
(`services/chat_service.py` line 41). -/
def tokenKeywords : List (List Char) :=
  ["analyze".data, "show all tokens".data, "token".data, "balance".data]

/-- Keyword set routed to `_handle_nft_analysis` (line 43). -/
def nftKeywords : List (List Char) :=
  ["nft".data, "collection".data, "show nft".data]

/-- Keyword set routed to `_handle_transaction_history` (line 45). -/
def historyKeywords : List (List Char) :=
  ["history".data, "transaction".data, "tx".data]

/-- Keyword set routed to `_handle_risk_assessment` (line 47). -/
def riskKeywords : List (List Char) :=
  ["risk".data, "security".data, "check risks".data]

/-- Keyword set routed to `_handle_whale_analysis` (line 49). -/
def whaleKeywords : List (List Char) :=
  ["whale".data, "analyze whale".data]

/-- Keyword set routed to `_handle_contract_verification` (line 51). -/
def contractKeywords : List (List Char) :=
  ["verify".data, "contract".data]

/-- `any(keyword in message_lower for keyword in kws)`. -/
def anyKeywordIn (kws : List (List Char)) (messageLower : List Char) : Bool :=
  kws.any (fun k => isSubstrOf k messageLower)

/-- The intent decision of `ChatService._handle_wallet_query`
(`services/chat_service.py` lines 38-54): lower-case the message and test the
six keyword sets in order, defaulting to token analysis. -/
def classifyIntent (message : List Char) : Intent :=
  let m := pyLower message
  if anyKeywordIn tokenKeywords m then .tokenAnalysis
  else if anyKeywordIn nftKeywords m then .nftAnalysis
  else if anyKeywordIn historyKeywords m then .transactionHistory
  else if anyKeywordIn riskKeywords m then .riskAssessment
  else if anyKeywordIn whaleKeywords m then .whaleAnalysis
  else if anyKeywordIn contractKeywords m then .contractVerification
  else .tokenAnalysis

/-- Decimal digits of a natural number. -/
def natDigits (n : Nat) : List Char := Nat.toDigits 10 n

/-- Insert a comma after every third digit of a reversed digit list (the
thousands separator of Python's `,` format flag). -/
def commaGroupRev : List Char → List Char
  | d1 :: d2 :: d3 :: r :: rs => d1 :: d2 :: d3 :: ',' :: commaGroupRev (r :: rs)
  | l => l

/-- Decimal digits of `n` with thousands separators. -/
def withCommas (n : Nat) : List Char := (commaGroupRev (natDigits n).reverse).reverse

/-- `n / d` rounded to the nearest integer, ties to even (the rounding of
Python's fixed-point float formatting, exact on the decimal values used
below). -/
def roundHalfEven (n d : Nat) : Nat :=
  let f := n / d
  let m := n % d
  if 2 * m < d then f
  else if d < 2 * m then f + 1
  else if f % 2 = 0 then f else f + 1

/-- Left-pad a digit list with zeros to width `w`. -/
def padZeros (w : Nat) (ds : List Char) : List Char :=
  List.replicate (w - ds.length) '0' ++ ds

/-- Python fixed-point formatting `f"{q:.<prec>f}"` (and `f"{q:,.<prec>f}"`
when `commas` is set) of a rational, written on the numerator and denominator
so that the kernel can evaluate it. -/
def formatFixed (q : ℚ) (prec : Nat) (commas : Bool) : List Char :=
  let neg := q.num < 0
  let n := roundHalfEven (q.num.natAbs * 10 ^ prec) q.den
  let ip := n / 10 ^ prec
  let fp := n % 10 ^ prec
  let ipStr := if commas then withCommas ip else natDigits ip
  (if neg then ['-'] else []) ++ ipStr ++ '.' :: padZeros prec (natDigits fp)

/-- `q > 1000` on the numerator and denominator (kernel-evaluable). -/
def qGt1000 (q : ℚ) : Bool := 1000 * (q.den : Int) < q.num

/-- Python `str.rstrip(c)`: drop every trailing occurrence of `c`. -/
def pyRstrip (c : Char) (s : List Char) : List Char :=
  (s.reverse.dropWhile (· == c)).reverse

/-- The quantity display of the token card (`services/chat_service.py` lines
86-90): `f"{quantity:,.2f}"` above 1000, else `f"{quantity:.6f}"` with
trailing zeros and the trailing point stripped. -/
def quantityDisplay (quantity : ℚ) : List Char :=
  if qGt1000 quantity then formatFixed quantity 2 true
  else pyRstrip '.' (pyRstrip '0' (formatFixed quantity 6 false))

/-- `ChatService._escape_html`'s entity table applied to one character
(`services/chat_service.py` lines 487-495). -/
def escapeChar (c : Char) : List Char :=
  if c = '&' then "&amp;".data
  else if c = '"' then "&quot;".data
  else if c = '\'' then "&#x27;".data
  else if c = '>' then "&gt;".data
  else if c = '<' then "&lt;".data
  else [c]

/-- `ChatService._escape_html` (`services/chat_service.py` lines 482-495):
empty/falsy input gives `""`, otherwise each character is replaced by its
entry in the escape table (itself when absent) and the results joined. -/
def escape_html (text : List Char) : List Char :=
  if text.isEmpty then [] else (text.map escapeChar).flatten

/-- `ChatService._truncate_address` (`services/chat_service.py` lines
497-501; `DataProcessor._truncate_address` is identical). -/
def truncate_address (address : List Char) (length : Nat := 8) : List Char :=
  if address.isEmpty || decide (address.length ≤ length + 8) then address
  else address.take length ++ "...".data ++ address.drop (address.length - 4)

/-- Is `c` an ASCII letter (the only cased characters exercised here)? -/
def isAsciiAlpha (c : Char) : Bool :=
  ('a' ≤ c && c ≤ 'z') || ('A' ≤ c && c ≤ 'Z')

/-- Worker for `pyTitle`: the flag records whether the previous character was
cased. -/
def pyTitleGo : Bool → List Char → List Char
  | _, [] => []
  | prevCased, c :: rest =>
      let cased := isAsciiAlpha c
      let c' := if cased then (if prevCased then pyLowerChar c else pyUpperChar c) else c
      c' :: pyTitleGo cased rest

/-- Python `str.title()` on ASCII text (`{network.title()}` in the token
card). -/
def pyTitle (s : List Char) : List Char := pyTitleGo false s

/-! ## Upstream data model (`bitscrunch/schemas.py`, `bitscrunch/api_client.py`) -/

/-- Parsed JSON value from an upstream response (`response.json()`). -/
inductive RawJson where
  | null
  | jbool (b : Bool)
  | num (q : ℚ)
  | str (s : List Char)
  | arr (xs : List RawJson)
  | obj (fields : List (List Char × RawJson))

/-- Python `str(value)` as used by f-string interpolation of a fetched JSON
value.  Only string values are rendered by any theorem below; the remaining
cases give a fixed total rendering. -/
def pyStr : RawJson → List Char
  | .str s => s
  | .null => "None".data
  | .jbool true => "True".data
  | .jbool false => "False".data
  | .num q => (if q.num < 0 then ['-'] else []) ++ natDigits q.num.natAbs ++
      (if q.den = 1 then [] else '/' :: natDigits q.den)
  | .arr _ => "[...]".data
  | .obj _ => "\x7b...\x7d".data

/-- `schemas.TokenBalance` (`bitscrunch/schemas.py` lines 4-11); `quantity`
is a Python float, modelled as a rational. -/
structure TokenBalance where
  blockchain : List Char
  chain_id : Int
  decimal : Int
  quantity : ℚ
  token_address : List Char
  token_name : List Char
  token_symbol : List Char

/-- `schemas.Pagination` (`bitscrunch/schemas.py` lines 13-17). -/
structure Pagination where
  total_items : Int
  offset : Int
  limit : Int
  has_next : Bool

/-- `schemas.WalletBalanceResponse` (`bitscrunch/schemas.py` lines 19-21). -/
structure WalletBalanceResponse where
  token : List TokenBalance
  pagination : Pagination

/-- Pydantic: look up a required field of a model's keyword arguments. -/
def reqField (fs : List (List Char × RawJson)) (name : List Char) :
    Except (List Char) RawJson :=
  match List.lookup name fs with
  | some v => Except.ok v
  | none => Except.error (name ++ ": Field required".data)

/-- Pydantic `str` field: a JSON string. -/
def asStrField (name : List Char) (v : RawJson) : Except (List Char) (List Char) :=
  match v with
  | .str s => Except.ok s
  | _ => Except.error (name ++ ": Input should be a valid string".data)

/-- Pydantic `int` field: an integral number. -/
def asIntField (name : List Char) (v : RawJson) : Except (List Char) Int :=
  match v with
  | .num q => if q.den = 1 then Except.ok q.num
      else Except.error (name ++ ": Input should be a valid integer".data)
  | _ => Except.error (name ++ ": Input should be a valid integer".data)

/-- Pydantic `float` field: any number. -/
def asFloatField (name : List Char) (v : RawJson) : Except (List Char) ℚ :=
  match v with
  | .num q => Except.ok q
  | _ => Except.error (name ++ ": Input should be a valid number".data)

/-- Pydantic `bool` field. -/
def asBoolField (name : List Char) (v : RawJson) : Except (List Char) Bool :=
  match v with
  | .jbool b => Except.ok b
  | _ => Except.error (name ++ ": Input should be a valid boolean".data)

/-- Pydantic validation of one `TokenBalance` (all seven fields required;
extra fields are ignored; the first validation error is reported, where
pydantic would collect them all). -/
def validateTokenBalance (j : RawJson) : Except (List Char) TokenBalance :=
  match j with
  | .obj fs => do
      let blockchain ← reqField fs "blockchain".data >>= asStrField "blockchain".data
      let chain_id ← reqField fs "chain_id".data >>= asIntField "chain_id".data
      let dec ← reqField fs "decimal".data >>= asIntField "decimal".data
      let quantity ← reqField fs "quantity".data >>= asFloatField "quantity".data
      let token_address ← reqField fs "token_address".data >>= asStrField "token_address".data
      let token_name ← reqField fs "token_name".data >>= asStrField "token_name".data
      let token_symbol ← reqField fs "token_symbol".data >>= asStrField "token_symbol".data
      Except.ok ⟨blockchain, chain_id, dec, quantity, token_address, token_name, token_symbol⟩
  | _ => Except.error "TokenBalance: Input should be a valid dictionary".data

/-- Pydantic validation of `List[TokenBalance]`. -/
def validateTokenBalances : List RawJson → Except (List Char) (List TokenBalance)
  | [] => Except.ok []
  | j :: rest => do
      let t ← validateTokenBalance j
      let ts ← validateTokenBalances rest
      Except.ok (t :: ts)

/-- Pydantic validation of one `Pagination`. -/
def validatePagination (j : RawJson) : Except (List Char) Pagination :=
  match j with
  | .obj fs => do
      let total_items ← reqField fs "total_items".data >>= asIntField "total_items".data
      let off ← reqField fs "offset".data >>= asIntField "offset".data
      let lim ← reqField fs "limit".data >>= asIntField "limit".data
      let has_next ← reqField fs "has_next".data >>= asBoolField "has_next".data
      Except.ok ⟨total_items, off, lim, has_next⟩
  | _ => Except.error "Pagination: Input should be a valid dictionary".data

/-- Pydantic construction `WalletBalanceResponse(**kwargs)`: both fields are
required, extra keyword arguments are ignored, and a validation failure
raises (`Except.error`). -/
def validateWalletBalanceResponse (fs : List (List Char × RawJson)) :
    Except (List Char) WalletBalanceResponse := do
  let tokenRaw ← reqField fs "token".data
  let tokens ← match tokenRaw with
    | .arr xs => validateTokenBalances xs
    | _ => Except.error "token: Input should be a valid list".data
  let pagRaw ← reqField fs "pagination".data
  let pag ← validatePagination pagRaw
  Except.ok ⟨tokens, pag⟩

/-- The outcome of one `requests.get` call against one endpoint. -/
inductive UpstreamOutcome where
  | netError (msg : List Char)
  | timeoutError (msg : List Char)
  | response (status : Nat) (body : RawJson)

/-- `response.raise_for_status()`: raises exactly on a 4xx/5xx status. -/
def raiseForStatus (status : Nat) : Except (List Char) Unit :=
  if 400 ≤ status then
    Except.error ("HTTP error ".data ++ natDigits status)
  else Except.ok ()

/-- The `try` body of `BitsCrunchAPIClient.get_wallet_balance`
(`bitscrunch/api_client.py` lines 22-40): perform the GET, raise for a bad
status, then `WalletBalanceResponse(**response.json())`. -/
def getWalletBalanceTry (oc : UpstreamOutcome) : Except (List Char) WalletBalanceResponse :=
  match oc with
  | .netError m => Except.error m
  | .timeoutError m => Except.error m
  | .response status body => do
      raiseForStatus status
      match body with
      | .obj fs => validateWalletBalanceResponse fs
      | _ => Except.error "WalletBalanceResponse: not a mapping".data

/-- The keyword arguments of the fallback constructor call
`WalletBalanceResponse(data=[], total_count=0)` in the `except` branch
(`bitscrunch/api_client.py` line 45). -/
def fallbackEmptyKwargs : List (List Char × RawJson) :=
  [("data".data, RawJson.arr []), ("total_count".data, RawJson.num 0)]

/-- `BitsCrunchAPIClient.get_wallet_balance` (`bitscrunch/api_client.py`
lines 20-45): on any failure of the `try` body the `except` branch evaluates
`WalletBalanceResponse(data=[], total_count=0)` — itself a pydantic
construction, which raises when its required fields are absent. -/
def get_wallet_balance (oc : UpstreamOutcome) : Except (List Char) WalletBalanceResponse :=
  match getWalletBalanceTry oc with
  | Except.ok r => Except.ok r
  | Except.error _ => validateWalletBalanceResponse fallbackEmptyKwargs

/-- The NFT-list normalization of `get_nft_holdings`
(`bitscrunch/api_client.py` lines 72-84) applied to a 200 response body.
Non-list values reached through `data`/`nfts` keys, and bodies that are
neither objects nor lists, end as the empty list (in Python those shapes
raise and land in the enclosing `except`, producing the same empty result). -/
def extractNfts (data : RawJson) : List RawJson :=
  match data with
  | .obj fs =>
      match List.lookup "data".data fs with
      | some (.arr xs) => xs
      | some (.obj dfs) =>
          (match List.lookup "nfts".data dfs with
           | some (.arr ys) => ys
           | _ =>
             match List.lookup "tokens".data dfs with
             | some (.arr zs) => zs
             | _ => [])
      | some _ => []
      | none =>
          match List.lookup "nfts".data fs with
          | some (.arr ys) => ys
          | some _ => []
          | none => []
  | .arr xs =>
      if xs.any (fun j => match j with | .str s => s = "data".data ∨ s = "nfts".data | _ => False)
      then [] else xs
  | _ => []

/-- The result dictionary of `get_nft_holdings`. -/
structure NftHoldings where
  nfts : List RawJson
  total_count : Nat
  address : List Char

/-- `BitsCrunchAPIClient.get_nft_holdings` (`bitscrunch/api_client.py` lines
47-110): try the candidate endpoints in order (their outcomes given by
`outcomes`); the first 200 response is normalized and returned; request
errors and non-200 statuses move on to the next candidate; if every
candidate fails, return the empty result. -/
def get_nft_holdings (address : List Char) : List UpstreamOutcome → NftHoldings
  | [] => ⟨[], 0, address⟩
  | UpstreamOutcome.response 200 body :: _ =>
      let nfts := extractNfts body
      ⟨nfts, nfts.length, address⟩
  | _ :: rest => get_nft_holdings address rest

/-- The transaction-list normalization of `get_transaction_history`
(`bitscrunch/api_client.py` lines 137-147), analogous to `extractNfts`. -/
def extractTransactions (data : RawJson) : List RawJson :=
  match data with
  | .obj fs =>
      match List.lookup "data".data fs with
      | some (.arr xs) => xs
      | some (.obj dfs) =>
          (match List.lookup "transactions".data dfs with
           | some (.arr ys) => ys
           | _ => [])
      | some _ => []
      | none =>
          match List.lookup "transactions".data fs with
          | some (.arr ys) => ys
          | some _ => []
          | none => []
  | .arr xs =>
      if xs.any (fun j => match j with
          | .str s => s = "data".data ∨ s = "transactions".data | _ => False)
      then [] else xs
  | _ => []

/-- The result dictionary of `get_transaction_history`. -/
structure TxHistory where
  transactions : List RawJson
  total_count : Nat
  address : List Char

/-- `BitsCrunchAPIClient.get_transaction_history` (`bitscrunch/api_client.py`
lines 112-173): same candidate-endpoint loop as the NFT fetch. -/
def get_transaction_history (address : List Char) : List UpstreamOutcome → TxHistory
  | [] => ⟨[], 0, address⟩
  | UpstreamOutcome.response 200 body :: _ =>
      let txs := extractTransactions body
      ⟨txs, txs.length, address⟩
  | _ :: rest => get_transaction_history address rest

/-! ## Response formatters (`services/chat_service.py`) -/

/-- The output of every handler: the `{"html": …}` dictionary. -/
structure Document where
  html : List Char

/-- `ChatService._format_error_message` (`services/chat_service.py` lines
467-480): the uniform error template around a title and a detail string,
ending with the fixed hint line. -/
def format_error_message (title detail : List Char) : List Char :=
  "\n        <div class=\"message bot-message\">\n".data ++
  "            <div class=\"message-content\">\n".data ++
  "                <div class=\"error-message\">\n".data ++
  "                    <h3><i class=\"fas fa-exclamation-triangle\"></i> ".data ++ title ++ "</h3>\n".data ++
  "                    <p>".data ++ detail ++ "</p>\n".data ++
  "                    <div style=\"margin-top: 1rem;\">\n".data ++
  "                        <small>💡 <strong>Tip:</strong> Make sure you're using a valid Ethereum wallet address (0x...)</small>\n".data ++
  "                    </div>\n".data ++
  "                </div>\n".data ++
  "            </div>\n".data ++
  "        </div>\n        ".data

/-- The fixed hint line of the error template. -/
def errorHintLine : List Char :=
  "<small>💡 <strong>Tip:</strong> Make sure you're using a valid Ethereum wallet address (0x...)</small>".data

/-- Python `s.replace(pat, rep)` with fuel (`fuel = s.length` suffices: every
step consumes at least one character of `s` when `pat` is non-empty, as all
patterns used are). -/
def pyReplaceGo (pat rep : List Char) : Nat → List Char → List Char
  | _, [] => []
  | 0, s => s
  | fuel + 1, c :: rest =>
      if pat.isPrefixOf (c :: rest) && !pat.isEmpty then
        rep ++ pyReplaceGo pat rep fuel ((c :: rest).drop pat.length)
      else c :: pyReplaceGo pat rep fuel rest

/-- Python `s.replace(pat, rep)` (leftmost, non-overlapping). -/
def pyReplace (s pat rep : List Char) : List Char := pyReplaceGo pat rep s.length s

/-- Scan for the earliest closing `**` on the current line, returning the
(lazy) group and the remainder after the closing delimiter. -/
def findStarStar : List Char → Option (List Char × List Char)
  | '*' :: '*' :: rest => some ([], rest)
  | '\n' :: _ => none
  | [] => none
  | c :: rest =>
      match findStarStar rest with
      | some (mid, after) => some (c :: mid, after)
      | none => none

/-- `re.sub(r'\*\*(.*?)\*\*', r'<strong>\1</strong>', …)` with fuel. -/
def scanStrong : Nat → List Char → List Char
  | 0, s => s
  | _, [] => []
  | fuel + 1, '*' :: '*' :: rest =>
      (match findStarStar rest with
       | some (mid, after) => "<strong>".data ++ mid ++ "</strong>".data ++ scanStrong fuel after
       | none => '*' :: scanStrong fuel ('*' :: rest))
  | fuel + 1, c :: rest => c :: scanStrong fuel rest

/-- Scan for the earliest closing `*` on the current line. -/
def findStar : List Char → Option (List Char × List Char)
  | '*' :: rest => some ([], rest)
  | '\n' :: _ => none
  | [] => none
  | c :: rest =>
      match findStar rest with
      | some (mid, after) => some (c :: mid, after)
      | none => none

/-- `re.sub(r'\*(.*?)\*', r'<em>\1</em>', …)` with fuel. -/
def scanEm : Nat → List Char → List Char
  | 0, s => s
  | _, [] => []
  | fuel + 1, '*' :: rest =>
      (match findStar rest with
       | some (mid, after) => "<em>".data ++ mid ++ "</em>".data ++ scanEm fuel after
       | none => '*' :: scanEm fuel rest)
  | fuel + 1, c :: rest => c :: scanEm fuel rest

/-- `ChatService._format_text_content` (`services/chat_service.py` lines
459-465): paragraph/line-break replacement, then bold and italic markdown. -/
def format_text_content (content : List Char) : List Char :=
  let c1 := pyReplace content "\n\n".data "</p><p>".data
  let c2 := pyReplace c1 "\n".data "<br>".data
  let c3 := "<p>".data ++ c2 ++ "</p>".data
  let c4 := scanStrong c3.length c3
  scanEm c4.length c4

/-- One token card of `_format_real_wallet_analysis`
(`services/chat_service.py` lines 82-118): icon letter, quantity display,
network (`.title()`-cased), escaped name, escaped truncated symbol plus a
literal `...`, raw (unescaped) contract address. -/
def tokenCardHtml (token : TokenBalance) : List Char :=
  let icon_text := if token.token_name.isEmpty then "?".data else pyUpper (token.token_name.take 1)
  let quantity : ℚ := token.quantity
  let quantity_display := quantityDisplay quantity
  let network := if token.blockchain.isEmpty then "Unknown".data else token.blockchain
  "\n                    <div class=\"token-card\">\n".data ++
  "                        <div class=\"token-header\">\n".data ++
  "                            <div class=\"token-icon\">".data ++ icon_text ++ "</div>\n".data ++
  "                            <div class=\"token-info\">\n".data ++
  "                                <div class=\"token-name\">".data ++ escape_html token.token_name ++ "</div>\n".data ++
  "                                <span class=\"token-symbol\">".data ++ escape_html (token.token_symbol.take 20) ++ "...</span>\n".data ++
  "                            </div>\n".data ++
  "                        </div>\n".data ++
  "                        <div class=\"token-balance\">".data ++ quantity_display ++ "</div>\n".data ++
  "                        <div class=\"token-details\">\n".data ++
  "                            <div class=\"detail-item\">\n".data ++
  "                                <div class=\"detail-label\"><i class=\"fas fa-network-wired\"></i> Network</div>\n".data ++
  "                                <div class=\"detail-value\">".data ++ pyTitle network ++ "</div>\n".data ++
  "                            </div>\n".data ++
  "                            <div class=\"detail-item\">\n".data ++
  "                                <div class=\"detail-label\"><i class=\"fas fa-file-contract\"></i> Contract</div>\n".data ++
  "                                <div class=\"detail-value copy-address\" onclick=\"copyToClipboard('".data ++ token.token_address ++ "')\" title=\"Click to copy\">\n".data ++
  "                                    ".data ++ truncate_address token.token_address ++ "\n".data ++
  "                                </div>\n".data ++
  "                            </div>\n".data ++
  "                        </div>\n".data ++
  "                    </div>\n                    ".data

/-- The sequence of cards appended to `tokens_html` by the per-token loop of
`_format_real_wallet_analysis` (`services/chat_service.py` lines 80-118):
one card per element of `response.token`, in order, with no cap (the guard
`if … response.token` only skips the loop when the list is empty, which
leaves `tokens_html` empty either way). -/
def tokenCards (response : WalletBalanceResponse) : List (List Char) :=
  response.token.map tokenCardHtml

/-- `tokens_html`: the concatenation of the rendered token cards. -/
def tokensHtml (response : WalletBalanceResponse) : List Char :=
  (tokenCards response).flatten

/-- `ChatService._format_real_wallet_analysis` (`services/chat_service.py`
lines 76-165).  `total_value` is accepted but never interpolated by the
template, as in the source; the enclosing `try/except` is dead in this model
because the embedded body is total. -/
def format_real_wallet_analysis (response : WalletBalanceResponse)
    (wallet_address : List Char) (total_value : ℚ) (token_count : Nat) : List Char :=
  let tokens_html := tokensHtml response
  "\n            <div class=\"message bot-message\">\n".data ++
  "                <div class=\"message-content\">\n".data ++
  "                    <div class=\"wallet-analysis\">\n".data ++
  "                        <h3><i class=\"fas fa-wallet\"></i> Wallet Analysis</h3>\n".data ++
  "                        <div class=\"wallet-address\">\n".data ++
  "                            <i class=\"fas fa-address-card\"></i> ".data ++ wallet_address ++ "\n".data ++
  "                        </div>\n".data ++
  "                        \n".data ++
  "                        <div class=\"summary-cards\">\n".data ++
  "                            <div class=\"summary-card\">\n".data ++
  "                                <i class=\"fas fa-coins\"></i>\n".data ++
  "                                <div class=\"summary-value\">".data ++ natDigits token_count ++ "</div>\n".data ++
  "                                <div class=\"summary-label\">Total Tokens</div>\n".data ++
  "                            </div>\n".data ++
  "                            <div class=\"summary-card\">\n".data ++
  "                                <i class=\"fas fa-network-wired\"></i>\n".data ++
  "                                <div class=\"summary-value\">Polygon</div>\n".data ++
  "                                <div class=\"summary-label\">Primary Network</div>\n".data ++
  "                            </div>\n".data ++
  "                        </div>\n".data ++
  "                        \n".data ++
  "                        <h4><i class=\"fas fa-list\"></i> Token Holdings</h4>\n".data ++
  "                        <div class=\"token-grid\">\n".data ++
  "                            ".data ++
  (if tokens_html.isEmpty then "<p>No tokens found in this wallet.</p>".data else tokens_html) ++
  "\n".data ++
  "                        </div>\n".data ++
  "                        \n".data ++
  "                        <div class=\"wallet-actions\">\n".data ++
  "                            <button class=\"action-btn\" onclick=\"sendMessage('Show transaction history for ".data ++ wallet_address ++ "')\">\n".data ++
  "                                <i class=\"fas fa-history\"></i> Transaction History\n".data ++
  "                            </button>\n".data ++
  "                            <button class=\"action-btn\" onclick=\"sendMessage('Show NFT holdings for ".data ++ wallet_address ++ "')\">\n".data ++
  "                                <i class=\"fas fa-images\"></i> View NFTs\n".data ++
  "                            </button>\n".data ++
  "                            <button class=\"action-btn\" onclick=\"sendMessage('Check risks for ".data ++ wallet_address ++ "')\">\n".data ++
  "                                <i class=\"fas fa-shield-alt\"></i> Security Analysis\n".data ++
  "                            </button>\n".data ++
  "                        </div>\n".data ++
  "                    </div>\n".data ++
  "                </div>\n".data ++
  "            </div>\n            ".data

/-- `nft.get(key, default)` followed by f-string interpolation: the `str()`
rendering of the value when the key is present, the default otherwise (the
items normalized by the gateway are JSON objects; a non-object item would
raise in Python and is not exercised by any theorem). -/
def nftGet (nft : RawJson) (key dflt : List Char) : List Char :=
  match nft with
  | .obj fs =>
      (match List.lookup key fs with
       | some v => pyStr v
       | none => dflt)
  | _ => dflt

/-- One NFT card of `_handle_nft_analysis` (`services/chat_service.py` lines
211-224): image URL, alt text, name, collection and token id are all
interpolated without HTML escaping. -/
def nftItemHtml (nft : RawJson) : List Char :=
  "\n                    <div class=\"nft-item\">\n".data ++
  "                        <div class=\"nft-image\">\n".data ++
  "                            <img src=\"".data ++ nftGet nft "image_url".data "https://via.placeholder.com/300x300?text=NFT".data ++ "\" \n".data ++
  "                                 alt=\"".data ++ nftGet nft "name".data "NFT".data ++ "\" \n".data ++
  "                                 onerror=\"this.src='https://via.placeholder.com/300x300?text=NFT'\">\n".data ++
  "                        </div>\n".data ++
  "                        <div class=\"nft-info\">\n".data ++
  "                            <h4>".data ++ nftGet nft "name".data "Unnamed NFT".data ++ "</h4>\n".data ++
  "                            <p><strong>Collection:</strong> ".data ++ nftGet nft "collection_name".data "Unknown".data ++ "</p>\n".data ++
  "                            <p><strong>Token ID:</strong> ".data ++ nftGet nft "token_id".data "N/A".data ++ "</p>\n".data ++
  "                        </div>\n".data ++
  "                    </div>\n                    ".data

/-- The sequence of cards appended to `nfts_html` by the per-NFT loop of
`_handle_nft_analysis` (`services/chat_service.py` line 210):
`for nft in nfts[:12]` — one card per item of the first twelve. -/
def nftCards (nfts : List RawJson) : List (List Char) :=
  (nfts.take 12).map nftItemHtml

/-- `nfts_html`: the concatenation of the rendered NFT cards. -/
def nftsHtml (nfts : List RawJson) : List Char :=
  (nftCards nfts).flatten

/-- The empty-wallet branch of `_handle_nft_analysis`
(`services/chat_service.py` lines 175-206). -/
def nftEmptyDocument (wallet_address : List Char) : List Char :=
  "\n                <div class=\"message bot-message\">\n".data ++
  "                    <div class=\"message-content\">\n".data ++
  "                        <div class=\"nft-analysis\">\n".data ++
  "                            <h3><i class=\"fas fa-images\"></i> NFT Holdings</h3>\n".data ++
  "                            <div class=\"wallet-address\">\n".data ++
  "                                <i class=\"fas fa-address-card\"></i> ".data ++ wallet_address ++ "\n".data ++
  "                            </div>\n".data ++
  "                            \n".data ++
  "                            <div class=\"summary-cards\">\n".data ++
  "                                <div class=\"summary-card\">\n".data ++
  "                                    <i class=\"fas fa-images\"></i>\n".data ++
  "                                    <div class=\"summary-value\">0</div>\n".data ++
  "                                    <div class=\"summary-label\">Total NFTs</div>\n".data ++
  "                                </div>\n".data ++
  "                            </div>\n".data ++
  "                            \n".data ++
  "                            <div class=\"no-nfts-message\">\n".data ++
  "                                <i class=\"fas fa-info-circle\"></i>\n".data ++
  "                                <p>No NFTs found in this wallet on the supported networks.</p>\n".data ++
  "                                <p><small>Note: BitsCrunch API may not support all NFT endpoints yet.</small></p>\n".data ++
  "                            </div>\n".data ++
  "                            \n".data ++
  "                            <div class=\"wallet-actions\">\n".data ++
  "                                <button class=\"action-btn\" onclick=\"sendMessage('Analyze ".data ++ wallet_address ++ "')\">\n".data ++
  "                                    <i class=\"fas fa-arrow-left\"></i> Back to Wallet\n".data ++
  "                                </button>\n".data ++
  "                            </div>\n".data ++
  "                        </div>\n".data ++
  "                    </div>\n".data ++
  "                </div>\n                ".data

/-- The populated branch of `_handle_nft_analysis`
(`services/chat_service.py` lines 226-255). -/
def nftMainDocument (wallet_address : List Char) (total_count : Nat)
    (nfts : List RawJson) : List Char :=
  "\n                <div class=\"message bot-message\">\n".data ++
  "                    <div class=\"message-content\">\n".data ++
  "                        <div class=\"nft-analysis\">\n".data ++
  "                            <h3><i class=\"fas fa-images\"></i> NFT Holdings</h3>\n".data ++
  "                            <div class=\"wallet-address\">\n".data ++
  "                                <i class=\"fas fa-address-card\"></i> ".data ++ wallet_address ++ "\n".data ++
  "                            </div>\n".data ++
  "                            \n".data ++
  "                            <div class=\"summary-cards\">\n".data ++
  "                                <div class=\"summary-card\">\n".data ++
  "                                    <i class=\"fas fa-images\"></i>\n".data ++
  "                                    <div class=\"summary-value\">".data ++ natDigits total_count ++ "</div>\n".data ++
  "                                    <div class=\"summary-label\">Total NFTs</div>\n".data ++
  "                                </div>\n".data ++
  "                            </div>\n".data ++
  "                            \n".data ++
  "                            <div class=\"nft-grid\">\n".data ++
  "                                ".data ++ nftsHtml nfts ++ "\n".data ++
  "                            </div>\n".data ++
  "                            \n".data ++
  "                            <div class=\"wallet-actions\">\n".data ++
  "                                <button class=\"action-btn\" onclick=\"sendMessage('Analyze ".data ++ wallet_address ++ "')\">\n".data ++
  "                                    <i class=\"fas fa-arrow-left\"></i> Back to Wallet\n".data ++
  "                                </button>\n".data ++
  "                            </div>\n".data ++
  "                        </div>\n".data ++
  "                    </div>\n".data ++
  "                </div>\n                ".data

/-- The static transaction-history document (`services/chat_service.py`
lines 268-295). -/
def txDocument (wallet_address : List Char) (txCount : Nat) : List Char :=
  "\n            <div class=\"message bot-message\">\n".data ++
  "                <div class=\"message-content\">\n".data ++
  "                    <div class=\"tx-analysis\">\n".data ++
  "                        <h3><i class=\"fas fa-history\"></i> Transaction History</h3>\n".data ++
  "                        <div class=\"wallet-address\">\n".data ++
  "                            <i class=\"fas fa-address-card\"></i> ".data ++ wallet_address ++ "\n".data ++
  "                        </div>\n".data ++
  "                        \n".data ++
  "                        <div class=\"summary-cards\">\n".data ++
  "                            <div class=\"summary-card\">\n".data ++
  "                                <i class=\"fas fa-list\"></i>\n".data ++
  "                                <div class=\"summary-value\">".data ++ natDigits txCount ++ "</div>\n".data ++
  "                                <div class=\"summary-label\">Transactions Found</div>\n".data ++
  "                            </div>\n".data ++
  "                        </div>\n".data ++
  "                        \n".data ++
  "                        <p><i class=\"fas fa-info-circle\"></i> Transaction history endpoint is not fully supported by the BitsCrunch API yet.</p>\n".data ++
  "                        \n".data ++
  "                        <div class=\"wallet-actions\">\n".data ++
  "                            <button class=\"action-btn\" onclick=\"sendMessage('Analyze ".data ++ wallet_address ++ "')\">\n".data ++
  "                                <i class=\"fas fa-arrow-left\"></i> Back to Wallet\n".data ++
  "                            </button>\n".data ++
  "                        </div>\n".data ++
  "                    </div>\n".data ++
  "                </div>\n".data ++
  "            </div>\n            ".data

/-- The static risk-assessment document (`services/chat_service.py` lines
305-338): placeholder content with only the address interpolated. -/
def riskDocument (wallet_address : List Char) : List Char :=
  "\n            <div class=\"message bot-message\">\n".data ++
  "                <div class=\"message-content\">\n".data ++
  "                    <div class=\"risk-analysis\">\n".data ++
  "                        <h3><i class=\"fas fa-shield-alt\"></i> Security Risk Assessment</h3>\n".data ++
  "                        <div class=\"wallet-address\">\n".data ++
  "                            <i class=\"fas fa-address-card\"></i> ".data ++ wallet_address ++ "\n".data ++
  "                        </div>\n".data ++
  "                        \n".data ++
  "                        <div class=\"summary-cards\">\n".data ++
  "                            <div class=\"summary-card\">\n".data ++
  "                                <i class=\"fas fa-shield-alt\" style=\"color: var(--success)\"></i>\n".data ++
  "                                <div class=\"summary-value\" style=\"color: var(--success)\">Low</div>\n".data ++
  "                                <div class=\"summary-label\">Risk Level</div>\n".data ++
  "                            </div>\n".data ++
  "                        </div>\n".data ++
  "                        \n".data ++
  "                        <div class=\"risk-factors\">\n".data ++
  "                            <div class=\"risk-factor low-risk\">\n".data ++
  "                                <h4>Normal Activity Pattern</h4>\n".data ++
  "                                <p><strong>Risk Level:</strong> 1/10</p>\n".data ++
  "                                <p>Wallet shows normal token holding patterns with standard Polygon network activity.</p>\n".data ++
  "                            </div>\n".data ++
  "                        </div>\n".data ++
  "                        \n".data ++
  "                        <div class=\"wallet-actions\">\n".data ++
  "                            <button class=\"action-btn\" onclick=\"sendMessage('Analyze ".data ++ wallet_address ++ "')\">\n".data ++
  "                                <i class=\"fas fa-arrow-left\"></i> Back to Wallet\n".data ++
  "                            </button>\n".data ++
  "                        </div>\n".data ++
  "                    </div>\n".data ++
  "                </div>\n".data ++
  "            </div>\n            ".data

/-- The static whale-analysis document (`services/chat_service.py` lines
347-383): placeholder content with only the address interpolated. -/
def whaleDocument (wallet_address : List Char) : List Char :=
  "\n            <div class=\"message bot-message\">\n".data ++
  "                <div class=\"message-content\">\n".data ++
  "                    <div class=\"whale-analysis\">\n".data ++
  "                        <h3><i class=\"fas fa-chart-line\"></i> Whale Wallet Analysis</h3>\n".data ++
  "                        <div class=\"wallet-address\">\n".data ++
  "                            <i class=\"fas fa-address-card\"></i> ".data ++ wallet_address ++ "\n".data ++
  "                        </div>\n".data ++
  "                        \n".data ++
  "                        <div class=\"summary-cards\">\n".data ++
  "                            <div class=\"summary-card\">\n".data ++
  "                                <i class=\"fas fa-coins\"></i>\n".data ++
  "                                <div class=\"summary-value\">14.5K</div>\n".data ++
  "                                <div class=\"summary-label\">MATIC Holdings</div>\n".data ++
  "                            </div>\n".data ++
  "                            <div class=\"summary-card\">\n".data ++
  "                                <i class=\"fas fa-star\" style=\"color: var(--accent)\"></i>\n".data ++
  "                                <div class=\"summary-value\">Medium</div>\n".data ++
  "                                <div class=\"summary-label\">Whale Status</div>\n".data ++
  "                            </div>\n".data ++
  "                        </div>\n".data ++
  "                        \n".data ++
  "                        <div class=\"whale-metrics\">\n".data ++
  "                            <p><strong>Analysis:</strong> Moderate holdings detected</p>\n".data ++
  "                            <p><strong>Primary Token:</strong> MATIC (Polygon)</p>\n".data ++
  "                            <p><strong>Activity Level:</strong> Standard</p>\n".data ++
  "                        </div>\n".data ++
  "                        \n".data ++
  "                        <div class=\"wallet-actions\">\n".data ++
  "                            <button class=\"action-btn\" onclick=\"sendMessage('Analyze ".data ++ wallet_address ++ "')\">\n".data ++
  "                                <i class=\"fas fa-arrow-left\"></i> Back to Wallet\n".data ++
  "                            </button>\n".data ++
  "                        </div>\n".data ++
  "                    </div>\n".data ++
  "                </div>\n".data ++
  "            </div>\n            ".data

/-- The static contract-verification document (`services/chat_service.py`
lines 392-423): placeholder content with only the address interpolated. -/
def contractDocument (wallet_address : List Char) : List Char :=
  "\n            <div class=\"message bot-message\">\n".data ++
  "                <div class=\"message-content\">\n".data ++
  "                    <div class=\"contract-verification\">\n".data ++
  "                        <h3><i class=\"fas fa-file-contract\"></i> Contract Verification</h3>\n".data ++
  "                        <div class=\"wallet-address\">\n".data ++
  "                            <i class=\"fas fa-address-card\"></i> ".data ++ wallet_address ++ "\n".data ++
  "                        </div>\n".data ++
  "                        \n".data ++
  "                        <div class=\"summary-cards\">\n".data ++
  "                            <div class=\"summary-card\">\n".data ++
  "                                <i class=\"fas fa-wallet\" style=\"color: var(--success)\"></i>\n".data ++
  "                                <div class=\"summary-value\">Wallet</div>\n".data ++
  "                                <div class=\"summary-label\">Address Type</div>\n".data ++
  "                            </div>\n".data ++
  "                        </div>\n".data ++
  "                        \n".data ++
  "                        <div class=\"verification-details\">\n".data ++
  "                            <p><strong>Type:</strong> Externally Owned Account (EOA)</p>\n".data ++
  "                            <p><strong>Status:</strong> Standard Wallet Address</p>\n".data ++
  "                            <p><strong>Network:</strong> Multi-chain (Polygon)</p>\n".data ++
  "                        </div>\n".data ++
  "                        \n".data ++
  "                        <div class=\"wallet-actions\">\n".data ++
  "                            <button class=\"action-btn\" onclick=\"sendMessage('Analyze ".data ++ wallet_address ++ "')\">\n".data ++
  "                                <i class=\"fas fa-arrow-left\"></i> Back to Wallet\n".data ++
  "                            </button>\n".data ++
  "                        </div>\n".data ++
  "                    </div>\n".data ++
  "                </div>\n".data ++
  "            </div>\n            ".data

/-- The general-response wrapper of `_handle_general_query`
(`services/chat_service.py` lines 445-454). -/
def generalDocument (content : List Char) : List Char :=
  "\n            <div class=\"message bot-message\">\n".data ++
  "                <div class=\"message-content\">\n".data ++
  "                    <div class=\"general-response\">\n".data ++
  "                        <i class=\"fas fa-robot\"></i>\n".data ++
  "                        <div class=\"response-text\">".data ++ format_text_content content ++ "</div>\n".data ++
  "                    </div>\n".data ++
  "                </div>\n".data ++
  "            </div>\n            ".data

/-! ## Handlers and orchestrator (`services/chat_service.py`) -/

/-- The effect environment of one request: the outcome of each upstream
call the handlers can make.  `completion` is the completion provider's reply
(`Except.error` when the provider call raises). -/
structure Env where
  balance : UpstreamOutcome
  nft : List UpstreamOutcome
  tx : List UpstreamOutcome
  completion : Except (List Char) (List Char)

/-- `ChatService._handle_token_analysis` (`services/chat_service.py` lines
56-74): fetch the balance, count the tokens (`len(response.token)` when the
list is non-empty, `0` otherwise — the same number), format; any raise is
caught and becomes the error document titled `Failed to fetch wallet data`. -/
def handle_token_analysis (oc : UpstreamOutcome) (wallet_address : List Char) : Document :=
  match get_wallet_balance oc with
  | Except.ok response =>
      let token_count := response.token.length
      ⟨format_real_wallet_analysis response wallet_address 0 token_count⟩
  | Except.error e => ⟨format_error_message "Failed to fetch wallet data".data e⟩

/-- `ChatService._handle_nft_analysis` (`services/chat_service.py` lines
167-261): fetch the holdings and render the empty or populated branch; the
embedded body is total, so the `except` branch is dead here. -/
def handle_nft_analysis (outcomes : List UpstreamOutcome) (wallet_address : List Char) : Document :=
  let nft_data := get_nft_holdings wallet_address outcomes
  if nft_data.nfts.isEmpty then ⟨nftEmptyDocument wallet_address⟩
  else ⟨nftMainDocument wallet_address nft_data.total_count nft_data.nfts⟩

/-- `ChatService._handle_transaction_history` (`services/chat_service.py`
lines 263-301). -/
def handle_transaction_history (outcomes : List UpstreamOutcome) (wallet_address : List Char) : Document :=
  let tx_data := get_transaction_history wallet_address outcomes
  ⟨txDocument wallet_address tx_data.transactions.length⟩

/-- `ChatService._handle_general_query` (`services/chat_service.py` lines
430-457): on a successful completion wrap the model text, on a raise render
the error document titled `Failed to process your request`. -/
def handle_general_query (completion : Except (List Char) (List Char)) : Document :=
  match completion with
  | Except.ok content => ⟨generalDocument content⟩
  | Except.error e => ⟨format_error_message "Failed to process your request".data e⟩

/-- `ChatService._handle_wallet_query` (`services/chat_service.py` lines
38-54): dispatch on the classified intent. -/
def handle_wallet_query (env : Env) (message wallet_address : List Char) : Document :=
  match classifyIntent message with
  | .tokenAnalysis => handle_token_analysis env.balance wallet_address
  | .nftAnalysis => handle_nft_analysis env.nft wallet_address
  | .transactionHistory => handle_transaction_history env.tx wallet_address
  | .riskAssessment => ⟨riskDocument wallet_address⟩
  | .whaleAnalysis => ⟨whaleDocument wallet_address⟩
  | .contractVerification => ⟨contractDocument wallet_address⟩

/-- The body of `ChatService.generate_response`'s `try` block
(`services/chat_service.py` lines 19-26): extract, validate, route.  The
truthiness test `if wallet_address and …` is the non-`None`, non-empty
check. -/
def generateResponseTry (env : Env) (message : List Char) : Except (List Char) Document :=
  match extract_wallet_address message with
  | some wallet_address =>
      if !wallet_address.isEmpty && is_valid_wallet_address wallet_address then
        Except.ok (handle_wallet_query env message wallet_address)
      else Except.ok (handle_general_query env.completion)
  | none => Except.ok (handle_general_query env.completion)

/-- `ChatService.generate_response` (`services/chat_service.py` lines
18-32): the `try` body, with any raise converted to the error document
titled `Error Processing Request`. -/
def generate_response (env : Env) (message : List Char) : Document :=
  match generateResponseTry env message with
  | Except.ok d => d
  | Except.error e => ⟨format_error_message "Error Processing Request".data e⟩

/-- The routing condition of `generate_response` (`services/chat_service.py`
line 23): `wallet_address and self.data_processor.is_valid_wallet_address(wallet_address)`.
`true` routes to the wallet-query path, `false` to the general-query path. -/
def routesToWallet (message : List Char) : Bool :=
  match extract_wallet_address message with
  | some w => !w.isEmpty && is_valid_wallet_address w
  | none => false

/-! ## Outbound call sites and their timeouts -/

/-- One outbound call site: where it is in the source and the `timeout=`
argument it passes (in seconds), `none` when the call carries no timeout. -/
structure OutboundCall where
  site : List Char
  timeoutSeconds : Option Nat
  deriving DecidableEq

/-- Every outbound call site of the gateway (`bitscrunch/api_client.py`) and
the completion-provider call (`services/chat_service.py`), with the timeout
each passes: the balance fetch (line 34) and the Groq completion call (lines
436-442) pass no timeout; every candidate-endpoint loop passes `timeout=10`
and the connection test passes `timeout=5`. -/
def outboundCalls : List OutboundCall :=
  [⟨"api_client.get_wallet_balance requests.get, line 34".data, none⟩,
   ⟨"api_client.get_nft_holdings requests.get, line 64".data, some 10⟩,
   ⟨"api_client.get_transaction_history requests.get, line 129".data, some 10⟩,
   ⟨"api_client.get_risk_assessment requests.get, line 189".data, some 10⟩,
   ⟨"api_client.get_whale_analysis requests.get, line 232".data, some 10⟩,
   ⟨"api_client.verify_contract requests.get, line 271".data, some 10⟩,
   ⟨"api_client.test_api_connection requests.get, line 307".data, some 5⟩,
   ⟨"chat_service._handle_general_query chat.completions.create, line 436".data, none⟩]

/-- Does a call site carry a bounded timeout in the 5-10 range? -/
def hasBoundedTimeout (c : OutboundCall) : Bool :=
  match c.timeoutSeconds with
  | some t => decide (5 ≤ t) && decide (t ≤ 10)
  | none => false

/-! ## Concrete sample data for the concrete theorems -/

/-- The wallet address used by the repository's own tests. -/
def sampleAddr : List Char := "0x9656911585799e7129668a1e79a0C8b43dbB7EA9".data

/-- A well-formed token entry as returned by the balance endpoint. -/
def sampleTokenJson : RawJson :=
  .obj [("blockchain".data, .str "polygon".data), ("chain_id".data, .num 137),
        ("decimal".data, .num 18), ("quantity".data, .num 1),
        ("token_address".data, .str "0xabc".data), ("token_name".data, .str "Tok".data),
        ("token_symbol".data, .str "TK".data)]

/-- A well-formed pagination entry. -/
def samplePagJson : RawJson :=
  .obj [("total_items".data, .num 1), ("offset".data, .num 0),
        ("limit".data, .num 10), ("has_next".data, .jbool false)]

/-- A token entry whose display strings are all `<script>`. -/
def scriptTokenJson : RawJson :=
  .obj [("blockchain".data, .str "polygon".data), ("chain_id".data, .num 137),
        ("decimal".data, .num 18), ("quantity".data, .num 1),
        ("token_address".data, .str "0xabc".data),
        ("token_name".data, .str "<script>".data),
        ("token_symbol".data, .str "<script>".data)]

/-- A 200 balance body holding one `<script>`-named token. -/
def scriptTokenBody : RawJson :=
  .obj [("token".data, .arr [scriptTokenJson]), ("pagination".data, samplePagJson)]

/-- An NFT item whose name is `<script>`. -/
def scriptNftJson : RawJson := .obj [("name".data, .str "<script>".data)]

/-- A TokenBalance value used by the uncapped-formatter counterexample. -/
def sampleTokenBalance : TokenBalance :=
  ⟨"polygon".data, 137, 18, 1, "0xabc".data, "Tok".data, "TK".data⟩

/-! ## Supporting lemmas -/

/-- A substring of `a` is a substring of `a ++ b`. -/
theorem substrOf_append_left {p a : List Char} (b : List Char) (h : SubstrOf p a) :
    SubstrOf p (a ++ b) := by
  obtain ⟨u, v, rfl⟩ := h
  exact ⟨u, v ++ b, by simp [List.append_assoc]⟩

/-- A substring of `b` is a substring of `a ++ b`. -/
theorem substrOf_append_right (a : List Char) {p b : List Char} (h : SubstrOf p b) :
    SubstrOf p (a ++ b) := by
  obtain ⟨u, v, rfl⟩ := h
  exact ⟨a ++ u, v, by simp [List.append_assoc]⟩

/-- No entity produced by the escape table contains a raw `<`. -/
theorem escapeChar_no_lt (c : Char) : '<' ∉ escapeChar c := by
  unfold escapeChar
  split_ifs with h1 h2 h3 h4 h5
  · decide
  · decide
  · decide
  · decide
  · decide
  · simp only [List.mem_singleton]
    exact fun h => h5 h.symm

/-- The escaped form of any string contains no raw `<`. -/
theorem escape_html_no_lt (s : List Char) : '<' ∉ escape_html s := by
  unfold escape_html
  split
  · exact List.not_mem_nil _
  · intro h
    obtain ⟨l, hl, hmem⟩ := List.mem_flatten.mp h
    obtain ⟨c, _, rfl⟩ := List.mem_map.mp hl
    exact escapeChar_no_lt c hmem

/-- `dropWhile` is the identity on a list none of whose members satisfy the
predicate. -/
theorem dropWhile_eq_self_of_none {p : Char → Bool} {t : List Char}
    (ht : ∀ c ∈ t, p c = false) : t.dropWhile p = t := by
  cases t with
  | nil => rfl
  | cons c r => rw [List.dropWhile_cons, ht c (by simp)]; rfl

/-- `str.strip()` leaves a whitespace-free string unchanged. -/
theorem pyStrip_eq_self {s : List Char} (hs : ∀ c ∈ s, isPySpace c = false) :
    pyStrip s = s := by
  unfold pyStrip
  rw [dropWhile_eq_self_of_none hs]
  rw [dropWhile_eq_self_of_none (fun c hc => hs c (List.mem_reverse.mp hc))]
  exact List.reverse_reverse s

/-- The anchored address pattern holds exactly of the 42-character strings
`0x` + 40 hex digits. -/
theorem matchesAddrPattern_iff (a : List Char) :
    matchesAddrPattern a = true ↔
      a.length = 42 ∧ a.take 2 = "0x".data ∧ ∀ c ∈ a.drop 2, isHexDigit c = true := by
  unfold matchesAddrPattern
  simp only [Bool.and_eq_true, beq_iff_eq, List.all_eq_true, List.length_drop]
  constructor
  · rintro ⟨⟨htake, hlen⟩, hall⟩
    have h2 : (a.take 2).length = 2 := by rw [htake]; rfl
    rw [List.length_take] at h2
    exact ⟨by omega, htake, hall⟩
  · rintro ⟨hlen, htake, hall⟩
    exact ⟨⟨htake, by omega⟩, hall⟩

/-- A string matching the pattern has length 42. -/
theorem length_of_pattern {a : List Char} (h : matchesAddrPattern a = true) :
    a.length = 42 :=
  ((matchesAddrPattern_iff a).mp h).1

/-- A string matching the pattern starts with `0x`. -/
theorem shape_of_pattern {a : List Char} (h : matchesAddrPattern a = true) :
    a = '0' :: 'x' :: a.drop 2 := by
  obtain ⟨-, htake, -⟩ := (matchesAddrPattern_iff a).mp h
  conv_lhs => rw [← List.take_append_drop 2 a]
  rw [htake]
  rfl

/-- Hex digits are not whitespace. -/
theorem hex_not_space {c : Char} (h : isHexDigit c = true) : isPySpace c = false := by
  by_contra hs
  rw [Bool.not_eq_false] at hs
  simp only [isPySpace, Bool.or_eq_true, beq_iff_eq] at hs
  rcases hs with ((((rfl | rfl) | rfl) | rfl) | rfl) | rfl <;> exact absurd h (by decide)

/-- No character of a pattern match is whitespace. -/
theorem pattern_chars_not_space {a : List Char} (h : matchesAddrPattern a = true) :
    ∀ c ∈ a, isPySpace c = false := by
  obtain ⟨-, -, hall⟩ := (matchesAddrPattern_iff a).mp h
  intro c hc
  rw [shape_of_pattern h, List.mem_cons, List.mem_cons] at hc
  rcases hc with rfl | rfl | hc
  · rfl
  · rfl
  · exact hex_not_space (hall c hc)

/-- Any string matching the anchored pattern passes the validator. -/
theorem valid_of_pattern {m : List Char} (h : matchesAddrPattern m = true) :
    is_valid_wallet_address m = true := by
  have hne : m ≠ [] := by
    intro hnil
    have := length_of_pattern h
    rw [hnil] at this
    exact absurd this (by decide)
  unfold is_valid_wallet_address
  rw [if_neg (by simpa [List.isEmpty_iff] using hne)]
  rw [pyStrip_eq_self (pattern_chars_not_space h)]
  exact h

/-- A successful per-position attempt yields a pattern match that is a
prefix of the scanned suffix. -/
theorem matchAddrHere_some {l m : List Char} (h : matchAddrHere l = some m) :
    matchesAddrPattern m = true ∧ m <+: l := by
  unfold matchAddrHere at h
  split at h
  · cases h
    exact ⟨by assumption, List.take_prefix 42 l⟩
  · cases h

/-- A failed per-position attempt means no pattern match starts here. -/
theorem matchAddrHere_none {l : List Char} (h : matchAddrHere l = none) :
    ∀ m, matchesAddrPattern m = true → ¬ m <+: l := by
  intro m hm hpre
  have hlen : m.length = 42 := length_of_pattern hm
  have htake : m = l.take 42 := by
    have := List.prefix_iff_eq_take.mp hpre
    rwa [hlen] at this
  unfold matchAddrHere at h
  rw [← htake, hm] at h
  cases h

/-- When the extractor returns `none`, no decomposition of the input holds a
pattern match. -/
theorem extract_none_sound {s : List Char} (h : extract_wallet_address s = none) :
    ∀ u m v, s = u ++ m ++ v → matchesAddrPattern m = false := by
  induction s with
  | nil =>
      intro u m v heq
      have : m = [] := by
        rcases List.append_eq_nil.mp (List.append_eq_nil.mp heq.symm).1 with ⟨-, h2⟩
        exact h2
      subst this
      decide
  | cons c rest ih =>
      intro u m v heq
      unfold extract_wallet_address at h
      cases hm : matchAddrHere (c :: rest) with
      | some m0 => rw [hm] at h; cases h
      | none =>
          rw [hm] at h
          by_contra hpat
          rw [Bool.not_eq_false] at hpat
          cases u with
          | nil =>
              apply matchAddrHere_none hm m hpat
              exact ⟨v, by simpa using heq.symm⟩
          | cons c' u' =>
              have heq' : c = c' ∧ rest = u' ++ m ++ v := by
                simpa using heq
              have := ih h u' m v heq'.2
              rw [hpat] at this
              cases this

/-- When the extractor misses, the whole input has no pattern match; and when
it hits, the match is a pattern match occurring at the leftmost position. -/
theorem extract_none_complete {s : List Char}
    (h : ∀ u m v, s = u ++ m ++ v → matchesAddrPattern m = false) :
    extract_wallet_address s = none := by
  induction s with
  | nil => rfl
  | cons c rest ih =>
      unfold extract_wallet_address
      cases hm : matchAddrHere (c :: rest) with
      | some m0 =>
          obtain ⟨hpat, w, hw⟩ := matchAddrHere_some hm
          have := h [] m0 w (by simpa using hw.symm)
          rw [hpat] at this
          cases this
      | none =>
          exact ih (fun u m v heq => h (c :: u) m v (by simp [heq]))

/-- When the extractor returns a match, it is a pattern match, it occurs in
the input, and it occurs at the leftmost position of any pattern match. -/
theorem extract_some_spec {s m : List Char} (h : extract_wallet_address s = some m) :
    matchesAddrPattern m = true ∧
      ∃ u v, s = u ++ m ++ v ∧
        ∀ u' m' v', s = u' ++ m' ++ v' → matchesAddrPattern m' = true →
          u.length ≤ u'.length := by
  induction s with
  | nil => cases h
  | cons c rest ih =>
      unfold extract_wallet_address at h
      cases hm : matchAddrHere (c :: rest) with
      | some m0 =>
          rw [hm] at h
          cases h
          obtain ⟨hpat, w, hw⟩ := matchAddrHere_some hm
          exact ⟨hpat, [], w, by simpa using hw.symm, fun u' m' v' _ _ => Nat.zero_le _⟩
      | none =>
          rw [hm] at h
          obtain ⟨hpat, u, v, hs, hmin⟩ := ih h
          refine ⟨hpat, c :: u, v, by simp [hs], ?_⟩
          intro u' m' v' heq hpat'
          cases u' with
          | nil =>
              exfalso
              apply matchAddrHere_none hm m' hpat'
              exact ⟨v', by simpa using heq.symm⟩
          | cons c' u'' =>
              have heq' : c = c' ∧ rest = u'' ++ m' ++ v' := by simpa using heq
              have := hmin u'' m' v' heq'.2 hpat'
              simpa using Nat.succ_le_succ this

/-- The fixed hint line occurs in every instance of the error template. -/
theorem errorHint_in_template (title detail : List Char) :
    SubstrOf errorHintLine (format_error_message title detail) := by
  unfold format_error_message
  apply substrOf_append_left
  apply substrOf_append_left
  apply substrOf_append_left
  apply substrOf_append_left
  apply substrOf_append_right
  exact ⟨"                        ".data, "\n".data, by decide⟩

/-! ## Claim theorems -/

/-- C8: the address validator accepts exactly the strings that, after
trimming surrounding whitespace, are `0x` followed by exactly forty
hexadecimal digits; any other string — including one that only contains
such a pattern as a proper substring — is rejected. -/
theorem validator_characterization (address : List Char) :
    is_valid_wallet_address address = true ↔
      ((pyStrip address).length = 42 ∧ (pyStrip address).take 2 = "0x".data ∧
        ∀ c ∈ (pyStrip address).drop 2, isHexDigit c = true) := by
  unfold is_valid_wallet_address
  split
  · constructor
    · intro h; cases h
    · rintro ⟨h1, -, -⟩
      rename_i hemp
      rw [List.isEmpty_iff] at hemp
      subst hemp
      exact absurd h1 (by decide)
  · exact matchesAddrPattern_iff (pyStrip address)

/-- C9: the address extractor returns `none` exactly when no substring of
the input matches `0x` + 40 hex digits, and otherwise returns the leftmost
matching substring. -/
theorem extractor_leftmost (s : List Char) :
    (extract_wallet_address s = none ↔
        ∀ u m v, s = u ++ m ++ v → matchesAddrPattern m = false) ∧
    (∀ m, extract_wallet_address s = some m →
        matchesAddrPattern m = true ∧
        ∃ u v, s = u ++ m ++ v ∧
          ∀ u' m' v', s = u' ++ m' ++ v' → matchesAddrPattern m' = true →
            u.length ≤ u'.length) :=
  ⟨⟨fun h => extract_none_sound h, fun h => extract_none_complete h⟩,
   fun _ h => extract_some_spec h⟩

/-- C9 witness: on a concrete message the extractor returns the embedded
address, which the theorem certifies as a leftmost pattern match. -/
theorem extractor_leftmost_witness :
    extract_wallet_address ("call ".data ++ sampleAddr ++ " now".data) = some sampleAddr ∧
    matchesAddrPattern sampleAddr = true :=
  ⟨by decide, ((extractor_leftmost ("call ".data ++ sampleAddr ++ " now".data)).2
      sampleAddr (by decide)).1⟩

/-- C10: every extracted candidate passes the validator, so the orchestrator
routes to the general-query path exactly when extraction returns `none`. -/
theorem extraction_implies_validity (message : List Char) :
    (∀ m, extract_wallet_address message = some m →
        is_valid_wallet_address m = true) ∧
    (routesToWallet message = false ↔ extract_wallet_address message = none) ∧
    (∀ env : Env, generateResponseTry env message =
        Except.ok (if routesToWallet message
          then handle_wallet_query env message ((extract_wallet_address message).getD [])
          else handle_general_query env.completion)) := by
  refine ⟨fun m h => valid_of_pattern (extract_some_spec h).1, ?_, ?_⟩
  · cases hx : extract_wallet_address message with
    | none => simp [routesToWallet, hx]
    | some w =>
        have hpat := (extract_some_spec hx).1
        have hv := valid_of_pattern hpat
        have hne : w.isEmpty = false := by rw [shape_of_pattern hpat]; rfl
        simp [routesToWallet, hx, hv, hne]
  · intro env
    cases hx : extract_wallet_address message with
    | none => simp [generateResponseTry, routesToWallet, hx]
    | some w =>
        have hpat := (extract_some_spec hx).1
        have hv := valid_of_pattern hpat
        have hne : w.isEmpty = false := by rw [shape_of_pattern hpat]; rfl
        simp [generateResponseTry, routesToWallet, hx, hv, hne]

/-- C10 witness: a concretely extracted address passes the validator. -/
theorem extraction_implies_validity_witness :
    is_valid_wallet_address sampleAddr = true :=
  (extraction_implies_validity ("send ".data ++ sampleAddr)).1 sampleAddr (by decide)

/-- C2: contrary to the claim, `get_wallet_balance` raises on every failing
upstream outcome — network error, timeout, 404, 500, and a 200 body that
fails schema validation — because the `except` branch's fallback
`WalletBalanceResponse(data=[], total_count=0)` omits the required `token`
and `pagination` fields and therefore itself raises a validation error. -/
theorem gateway_balance_raises_on_every_failure :
    (∃ e, get_wallet_balance (UpstreamOutcome.netError "connection error".data) =
        Except.error e) ∧
    (∃ e, get_wallet_balance (UpstreamOutcome.timeoutError "read timed out".data) =
        Except.error e) ∧
    (∃ e, get_wallet_balance (UpstreamOutcome.response 404 RawJson.null) =
        Except.error e) ∧
    (∃ e, get_wallet_balance (UpstreamOutcome.response 500 (RawJson.obj [])) =
        Except.error e) ∧
    (∃ e, get_wallet_balance
        (UpstreamOutcome.response 200 (RawJson.obj [("token".data, RawJson.num 5)])) =
        Except.error e) :=
  ⟨⟨_, rfl⟩, ⟨_, rfl⟩, ⟨_, rfl⟩, ⟨_, rfl⟩, ⟨_, rfl⟩⟩

/-- C1: with the balance endpoint answering HTTP 500, a token-analysis
message produces the uniform error document (titled `Failed to fetch wallet
data`, carrying the validation error raised by the gateway's own fallback),
not a wallet-analysis document reporting zero tokens — the error document
does not even contain the `Total Tokens` summary label. -/
theorem token_analysis_on_http_500_returns_error_document :
    generate_response
        ⟨UpstreamOutcome.response 500 (RawJson.obj []), [], [], Except.ok "hi".data⟩
        "analyze 0x9656911585799e7129668a1e79a0C8b43dbB7EA9".data
      = ⟨format_error_message "Failed to fetch wallet data".data
          "token: Field required".data⟩ ∧
    isSubstrOf "Total Tokens".data
        (format_error_message "Failed to fetch wallet data".data
          "token: Field required".data) = false :=
  ⟨by rfl, by decide⟩

/-- C3 counterexample: the NFT formatter does not escape provider strings —
rendering a payload holding an NFT named `<script>` puts a raw, unescaped
`<script>` into the output document. -/
theorem nft_formatter_emits_unescaped_script :
    isSubstrOf "<script>".data
      (handle_nft_analysis
        [UpstreamOutcome.response 200 (RawJson.obj [("nfts".data, RawJson.arr [scriptNftJson])])]
        sampleAddr).html = true := by decide

/-- C3 (amended): `_escape_html` realises exactly the claimed entity table
(`&`, `"`, `'`, `>`, `<` to their entities, everything else unchanged), its
output never contains a raw `<`, and the token-analysis formatter — which
escapes token names and symbols — emits no unescaped `<script>` for a token
named `<script>`; the NFT formatter, by the counterexample, does not escape. -/
theorem escaping_in_token_formatter :
    (escapeChar '&' = "&amp;".data ∧ escapeChar '"' = "&quot;".data ∧
     escapeChar '\'' = "&#x27;".data ∧ escapeChar '>' = "&gt;".data ∧
     escapeChar '<' = "&lt;".data ∧
     ∀ c, c ≠ '&' → c ≠ '"' → c ≠ '\'' → c ≠ '>' → c ≠ '<' → escapeChar c = [c]) ∧
    (∀ s, '<' ∉ escape_html s) ∧
    escape_html "<script>".data = "&lt;script&gt;".data ∧
    isSubstrOf "<script>".data
      (handle_token_analysis (UpstreamOutcome.response 200 scriptTokenBody)
        sampleAddr).html = false := by
  refine ⟨⟨by decide, by decide, by decide, by decide, by decide, ?_⟩,
    escape_html_no_lt, by decide, by decide⟩
  intro c h1 h2 h3 h4 h5
  unfold escapeChar
  rw [if_neg h1, if_neg h2, if_neg h3, if_neg h4, if_neg h5]

/-- C3 witness: the amended theorem applied at concrete inputs — an ordinary
character is left unchanged by the table, and a concrete escaped string
contains no raw `<`. -/
theorem escaping_in_token_formatter_witness :
    escapeChar 'a' = ['a'] ∧ '<' ∉ escape_html "<b>".data :=
  ⟨escaping_in_token_formatter.1.2.2.2.2.2 'a' (by decide) (by decide) (by decide)
      (by decide) (by decide),
   escaping_in_token_formatter.2.1 "<b>".data⟩

/-- C4: the intent classifier tests the six keyword sets in the fixed
precedence order (token, nft, history, risk, whale, contract); the first
set with a keyword occurring in the lower-cased message wins, an unmatched
message defaults to token analysis, and in particular a message containing
both `token` and `nft` resolves to token analysis. -/
theorem intent_precedence (message : List Char) :
    (anyKeywordIn tokenKeywords (pyLower message) = true →
        classifyIntent message = Intent.tokenAnalysis) ∧
    (anyKeywordIn tokenKeywords (pyLower message) = false →
     anyKeywordIn nftKeywords (pyLower message) = true →
        classifyIntent message = Intent.nftAnalysis) ∧
    (anyKeywordIn tokenKeywords (pyLower message) = false →
     anyKeywordIn nftKeywords (pyLower message) = false →
     anyKeywordIn historyKeywords (pyLower message) = true →
        classifyIntent message = Intent.transactionHistory) ∧
    (anyKeywordIn tokenKeywords (pyLower message) = false →
     anyKeywordIn nftKeywords (pyLower message) = false →
     anyKeywordIn historyKeywords (pyLower message) = false →
     anyKeywordIn riskKeywords (pyLower message) = true →
        classifyIntent message = Intent.riskAssessment) ∧
    (anyKeywordIn tokenKeywords (pyLower message) = false →
     anyKeywordIn nftKeywords (pyLower message) = false →
     anyKeywordIn historyKeywords (pyLower message) = false →
     anyKeywordIn riskKeywords (pyLower message) = false →
     anyKeywordIn whaleKeywords (pyLower message) = true →
        classifyIntent message = Intent.whaleAnalysis) ∧
    (anyKeywordIn tokenKeywords (pyLower message) = false →
     anyKeywordIn nftKeywords (pyLower message) = false →
     anyKeywordIn historyKeywords (pyLower message) = false →
     anyKeywordIn riskKeywords (pyLower message) = false →
     anyKeywordIn whaleKeywords (pyLower message) = false →
     anyKeywordIn contractKeywords (pyLower message) = true →
        classifyIntent message = Intent.contractVerification) ∧
    (anyKeywordIn tokenKeywords (pyLower message) = false →
     anyKeywordIn nftKeywords (pyLower message) = false →
     anyKeywordIn historyKeywords (pyLower message) = false →
     anyKeywordIn riskKeywords (pyLower message) = false →
     anyKeywordIn whaleKeywords (pyLower message) = false →
     anyKeywordIn contractKeywords (pyLower message) = false →
        classifyIntent message = Intent.tokenAnalysis) ∧
    (isSubstrOf "token".data (pyLower message) = true →
     isSubstrOf "nft".data (pyLower message) = true →
        classifyIntent message = Intent.tokenAnalysis) := by
  refine ⟨?_, ?_, ?_, ?_, ?_, ?_, ?_, ?_⟩
  · intro h1; simp [classifyIntent, h1]
  · intro h1 h2; simp [classifyIntent, h1, h2]
  · intro h1 h2 h3; simp [classifyIntent, h1, h2, h3]
  · intro h1 h2 h3 h4; simp [classifyIntent, h1, h2, h3, h4]
  · intro h1 h2 h3 h4 h5; simp [classifyIntent, h1, h2, h3, h4, h5]
  · intro h1 h2 h3 h4 h5 h6; simp [classifyIntent, h1, h2, h3, h4, h5, h6]
  · intro h1 h2 h3 h4 h5 h6; simp [classifyIntent, h1, h2, h3, h4, h5, h6]
  · intro htok _
    have h1 : anyKeywordIn tokenKeywords (pyLower message) = true := by
      simp [anyKeywordIn, tokenKeywords, htok]
    simp [classifyIntent, h1]

/-- C4 witness: a concrete message containing both `token` and `nft`
resolves to token analysis through the theorem's precedence clause. -/
theorem intent_precedence_witness :
    classifyIntent "show nft and token info".data = Intent.tokenAnalysis :=
  (intent_precedence "show nft and token info".data).2.2.2.2.2.2.2
    (by decide) (by decide)

/-- C5 counterexample: the live token formatter has no display cap — a
payload of eleven tokens renders eleven token cards, violating the claimed
at-most-ten bound. -/
theorem token_formatter_renders_eleven_cards :
    (tokenCards ⟨List.replicate 11 sampleTokenBalance, ⟨11, 0, 50, false⟩⟩).length = 11 ∧
    ¬ ((tokenCards ⟨List.replicate 11 sampleTokenBalance, ⟨11, 0, 50, false⟩⟩).length ≤ 10) := by
  constructor
  · simp [tokenCards]
  · simp [tokenCards]

/-- C5 (amended): the NFT formatter renders at most twelve cards (exactly
`min 12 n` for an `n`-item payload, the overflow silently omitted), while
the token formatter renders exactly one card per payload token, uncapped. -/
theorem display_caps (nfts : List RawJson) (tokens : List TokenBalance) (pag : Pagination) :
    (nftCards nfts).length = min 12 nfts.length ∧
    (nftCards nfts).length ≤ 12 ∧
    (tokenCards ⟨tokens, pag⟩).length = tokens.length := by
  refine ⟨by simp [nftCards], ?_, by simp [tokenCards]⟩
  simp only [nftCards, List.length_map, List.length_take]
  omega

/-- C6: the orchestrator's `try` body always returns a document (no
exception escapes); when the completion provider raises on the general
path, and when the gateway raises on the token-analysis path, the result is
the uniform error template with the failing step's detail; and every
instance of that template carries the one-line valid-address hint. -/
theorem orchestrator_total_and_uniform_errors (env : Env) (message : List Char) :
    (∃ d, generateResponseTry env message = Except.ok d) ∧
    (∀ e, extract_wallet_address message = none → env.completion = Except.error e →
        generate_response env message =
          ⟨format_error_message "Failed to process your request".data e⟩) ∧
    (∀ w e, extract_wallet_address message = some w →
        classifyIntent message = Intent.tokenAnalysis →
        get_wallet_balance env.balance = Except.error e →
        generate_response env message =
          ⟨format_error_message "Failed to fetch wallet data".data e⟩) ∧
    (∀ title detail, SubstrOf errorHintLine (format_error_message title detail)) := by
  refine ⟨?_, ?_, ?_, errorHint_in_template⟩
  · cases hx : extract_wallet_address message with
    | none =>
        refine ⟨handle_general_query env.completion, ?_⟩
        simp [generateResponseTry, hx]
    | some w =>
        by_cases hcond : (!w.isEmpty && is_valid_wallet_address w) = true
        · exact ⟨handle_wallet_query env message w, by simp [generateResponseTry, hx, hcond]⟩
        · exact ⟨handle_general_query env.completion, by simp [generateResponseTry, hx, hcond]⟩
  · intro e hx hc
    simp [generate_response, generateResponseTry, hx, handle_general_query, hc]
  · intro w e hx hcl hb
    have hpat := (extract_some_spec hx).1
    have hv := valid_of_pattern hpat
    have hne : w.isEmpty = false := by rw [shape_of_pattern hpat]; rfl
    simp [generate_response, generateResponseTry, hx, hv, hne,
      handle_wallet_query, hcl, handle_token_analysis, hb]

/-- C6 witness: the theorem applied at a concrete failing completion call —
the orchestrator returns the uniform error document. -/
theorem orchestrator_witness :
    generate_response
        ⟨UpstreamOutcome.response 404 RawJson.null, [], [], Except.error "Groq down".data⟩
        "hello".data
      = ⟨format_error_message "Failed to process your request".data "Groq down".data⟩ :=
  (orchestrator_total_and_uniform_errors
      ⟨UpstreamOutcome.response 404 RawJson.null, [], [], Except.error "Groq down".data⟩
      "hello".data).2.1 "Groq down".data (by decide) (by rfl)

/-- C7 counterexample: not every outbound call carries a bounded 5-10 second
timeout — the balance fetch and the completion-provider call carry none. -/
theorem some_outbound_call_lacks_timeout :
    ¬ (∀ c ∈ outboundCalls, hasBoundedTimeout c = true) := by decide

/-- C7 (amended): every outbound call site except the balance fetch
(`api_client.py` line 34) and the completion-provider call
(`chat_service.py` line 436) carries a timeout between 5 and 10 seconds,
and those two sites are exactly the ones without a bounded timeout. -/
theorem outbound_timeouts_except_balance_and_completion :
    ∀ c ∈ outboundCalls,
      (hasBoundedTimeout c = false →
          c.site = "api_client.get_wallet_balance requests.get, line 34".data ∨
          c.site = "chat_service._handle_general_query chat.completions.create, line 436".data) ∧
      (c.site ≠ "api_client.get_wallet_balance requests.get, line 34".data →
       c.site ≠ "chat_service._handle_general_query chat.completions.create, line 436".data →
          hasBoundedTimeout c = true) := by decide

/-- C7 witness: the theorem applied at the NFT-holdings call site, which
carries `timeout=10`. -/
theorem outbound_timeouts_witness :
    hasBoundedTimeout
      ⟨"api_client.get_nft_holdings requests.get, line 64".data, some 10⟩ = true :=
  (outbound_timeouts_except_balance_and_completion
      ⟨"api_client.get_nft_holdings requests.get, line 64".data, some 10⟩
      (by decide)).2 (by decide) (by decide)

end BitsChat
